import Mathlib

/-!
Verification of the semantic-analysis / code-synthesis core of the Oberon
compiler (src/src/context.js) against its natural-language specification.

The definitions below are a shallow embedding of the relevant parts of
context.js.  State machines become explicit state records, JavaScript
exceptions become `Except`, JavaScript objects become inductive types,
and string synthesis stays string synthesis.  External collaborator
modules (js/Types.js, js/Scope.js, js/Code.js, the code generator and the
runtime library) are not part of src/; where one of their functions is
needed it is modelled from the spec and marked as such in its doc comment.
-/

/- ===================== Type model (spec section 3) ===================== -/

/-- Basic type kinds of the language (spec section 3, Basic). -/
inductive BasicK where
  | integer
  | real
  | bool
  | ch
  | set
deriving DecidableEq, Repr

/-- A record field as the record declaration processor sees it: its name and
the code of its type-specific default initializer.  The initializer text for
a field comes from the external Types module (`type.initializer`), so it is
carried here as an abstract string. -/
structure RField where
  fname : String
  initCode : String
deriving DecidableEq, Repr

/-- Record types (spec section 3, Record): a name, the scope-qualification
text used when the record is referenced from another scope (source:
`qualifyScope(recordScope(r))`), the own (non-inherited) fields, and an
optional single base record.  `root` is a record without a declared base,
`ext` one with a base. -/
inductive RecordT where
  | root (rname qual : String) (fields : List RField)
  | ext (rname qual : String) (fields : List RField) (base : RecordT)
deriving DecidableEq, Repr

/-- Source: `Type.typeName` for records. -/
def RecordT.rname : RecordT → String
  | .root n _ _ => n
  | .ext n _ _ _ => n

/-- Scope qualification text of the record (source: `qualifyScope(Type.recordScope(r))`). -/
def RecordT.qual : RecordT → String
  | .root _ q _ => q
  | .ext _ q _ _ => q

/-- Source: `Type.recordOwnFields`. -/
def RecordT.ownFields : RecordT → List RField
  | .root _ _ f => f
  | .ext _ _ f _ => f

/-- Source: `Type.recordBase` — the declared base record, if any. -/
def RecordT.base? : RecordT → Option RecordT
  | .root _ _ _ => none
  | .ext _ _ _ b => some b

/-- The static types handled by the translator (spec section 3): basic
kinds, fixed-length string literals, statically sized arrays, open arrays,
records, pointers (whose base resolves to a record, a data-model
invariant), procedures, and the type of NIL. -/
inductive OType where
  | basic (k : BasicK)
  | strT (len : Nat)
  | staticArray (elem : OType) (len : Nat)
  | openArray (elem : OType)
  | record (r : RecordT)
  | pointer (r : RecordT)
  | procT (pname : String)
  | nilT
deriving DecidableEq, Repr

/-- Modelled from the spec: `type.description()` lives in the external
Types module; it is only used here as error-payload text. -/
def OType.description : OType → String
  | .basic .integer => "INTEGER"
  | .basic .real => "REAL"
  | .basic .bool => "BOOLEAN"
  | .basic .ch => "CHAR"
  | .basic .set => "SET"
  | .strT _ => "multi-character string"
  | .staticArray e _ => "ARRAY OF " ++ e.description
  | .openArray e => "ARRAY OF " ++ e.description
  | .record r => "RECORD " ++ r.rname
  | .pointer r => "POINTER TO " ++ r.rname
  | .procT n => "PROCEDURE " ++ n
  | .nilT => "NIL"

/-- Helper: string concatenation is associative (used to normalise emitted
code text). -/
theorem string_append_assoc (a b c : String) : a ++ b ++ c = a ++ (b ++ c) := by
  apply String.ext
  simp [String.data_append, List.append_assoc]

/- ============ Counted FOR loop (source: exports.For, lines 1497-1571) ============ -/

/-- The accumulated state of the FOR-loop context (source: ForContext.init):
the control variable name, whether the init expression has been parsed,
the captured text of the TO expression, whether TO has been parsed, whether
BY has been parsed, and the BY step constant when one was given.  The
source field `__by` is called `byVal` here because `by` is reserved. -/
structure ForState where
  cvar : String
  initExprParsed : Bool
  toExpr : String
  toParsed : Bool
  byParsed : Bool
  byVal : Option Int
deriving DecidableEq, Repr

/-- Errors raised by the FOR-loop context while handling its expressions. -/
inductive ForError where
  | assignIntegerExpected (cvar got : String)
  | toIntegerExpected (got : String)
  | byIntegerExpected (got : String)
  | byConstExpected
deriving DecidableEq, Repr

/-- Source: For.handleExpression together with For._handleInitExpression
(context.js lines 1522-1546).  The first expression is the init value, the
second the TO limit, the third the BY step; each must be INTEGER, and the
BY step must additionally carry a compile-time constant, which is stored. -/
def forHandleExpression (st : ForState) (etype : OType) (econst : Option Int) :
    Except ForError ForState :=
  if !st.initExprParsed then
    if etype ≠ OType.basic BasicK.integer then
      Except.error (ForError.assignIntegerExpected st.cvar etype.description)
    else Except.ok { st with initExprParsed := true }
  else if !st.toParsed then
    if etype ≠ OType.basic BasicK.integer then
      Except.error (ForError.toIntegerExpected etype.description)
    else Except.ok { st with toParsed := true }
  else
    if etype ≠ OType.basic BasicK.integer then
      Except.error (ForError.byIntegerExpected etype.description)
    else
      match econst with
      | none => Except.error ForError.byConstExpected
      | some v => Except.ok { st with byVal := some v }

/-- Source: the comparison `this.__by < 0` in For.handleBegin; in
JavaScript `undefined < 0` is false, so an absent step compares as
non-negative. -/
def jsLtZero : Option Int → Bool
  | none => false
  | some b => b < 0

/-- Source: For.handleBegin (context.js lines 1556-1569).  Returns the text
written for the loop header tail: the comparison direction is chosen by the
sign of the BY constant, the step statement is an increment by the step for
a non-negative step, a decrement by its magnitude for a negative one, and a
unary increment when no step was given. -/
def forHandleBegin (st : ForState) : String :=
  let relation := if jsLtZero st.byVal then " >= " else " <= "
  let step :=
    match st.byVal with
    | none => "++" ++ st.cvar
    | some b => st.cvar ++ (if b < 0 then " -= " ++ toString (-b) else " += " ++ toString b)
  "; " ++ st.cvar ++ relation ++ st.toExpr ++ "; " ++ step ++ ")"

/-- C9: for every counted FOR loop, a negative constant step emits the
non-increasing comparison and a decrement by the step magnitude, a
non-negative constant step emits the non-decreasing comparison and an
increment by the step, and an absent step emits the non-decreasing
comparison with an increment of one. -/
theorem for_step_sign_selects_comparison (st : ForState) :
    (∀ b : Int, st.byVal = some b → b < 0 →
      forHandleBegin st =
        "; " ++ st.cvar ++ " >= " ++ st.toExpr ++ "; " ++ st.cvar ++ " -= " ++ toString (-b) ++ ")")
    ∧ (∀ b : Int, st.byVal = some b → 0 ≤ b →
      forHandleBegin st =
        "; " ++ st.cvar ++ " <= " ++ st.toExpr ++ "; " ++ st.cvar ++ " += " ++ toString b ++ ")")
    ∧ (st.byVal = none →
      forHandleBegin st =
        "; " ++ st.cvar ++ " <= " ++ st.toExpr ++ "; ++" ++ st.cvar ++ ")") := by
  refine ⟨?_, ?_, ?_⟩
  · intro b hb hneg
    simp [forHandleBegin, jsLtZero, hb, hneg, string_append_assoc]
  · intro b hb hnonneg
    have : ¬ b < 0 := not_lt.mpr hnonneg
    simp [forHandleBegin, jsLtZero, hb, this, string_append_assoc]
  · intro hb
    have h : ∀ z : String, "; " ++ ("++" ++ z) = "; ++" ++ z := by
      intro z
      rw [← string_append_assoc]
      rfl
    simp [forHandleBegin, jsLtZero, hb, string_append_assoc, h]

/-- Witness for C9 at concrete loop states: step -1, step 2 and no step. -/
theorem for_step_sign_selects_comparison_witness :
    forHandleBegin ⟨"i", true, "1", true, false, some (-1)⟩ = "; i >= 1; i -= 1)"
    ∧ forHandleBegin ⟨"i", true, "10", true, false, some 2⟩ = "; i <= 10; i += 2)"
    ∧ forHandleBegin ⟨"i", true, "10", true, false, none⟩ = "; i <= 10; ++i)" :=
  ⟨(for_step_sign_selects_comparison ⟨"i", true, "1", true, false, some (-1)⟩).1
      (-1) rfl (by decide),
   (for_step_sign_selects_comparison ⟨"i", true, "10", true, false, some 2⟩).2.1
      2 rfl (by decide),
   (for_step_sign_selects_comparison ⟨"i", true, "10", true, false, none⟩).2.2 rfl⟩

/-- C1 counterexample: a BY step of 0 is not rejected.  Starting from the
state after init and TO are parsed, handling a constant-0 BY expression
succeeds (storing step 0), and handleBegin then emits the loop header for
it — no ZeroStepInCountedLoop error exists anywhere on this path. -/
theorem for_zero_step_is_accepted :
    forHandleExpression ⟨"i", true, "10", true, false, none⟩ (OType.basic BasicK.integer) (some 0)
      = Except.ok ⟨"i", true, "10", true, false, some 0⟩
    ∧ forHandleBegin ⟨"i", true, "10", true, false, some 0⟩ = "; i <= 10; i += 0)" := by
  constructor
  · rfl
  · rfl

/-- C1 as amended: when a BY step is given the translator requires it to be
an INTEGER compile-time constant (wrong type or a non-constant expression
fail), but it does not require the step to be nonzero: every constant value,
zero included, is accepted and stored, and a zero step then emits the
non-decreasing loop header with an increment by 0. -/
theorem for_by_requires_integer_constant (st : ForState) (etype : OType)
    (h1 : st.initExprParsed = true) (h2 : st.toParsed = true) :
    (etype ≠ OType.basic BasicK.integer →
      forHandleExpression st etype (some 0)
        = Except.error (ForError.byIntegerExpected etype.description))
    ∧ (etype = OType.basic BasicK.integer →
      forHandleExpression st etype none = Except.error ForError.byConstExpected)
    ∧ (∀ v : Int, etype = OType.basic BasicK.integer →
      forHandleExpression st etype (some v) = Except.ok { st with byVal := some v })
    ∧ forHandleBegin { st with byVal := some 0 }
        = "; " ++ st.cvar ++ " <= " ++ st.toExpr ++ "; " ++ st.cvar ++ " += 0)" := by
  refine ⟨?_, ?_, ?_, ?_⟩
  · intro hne
    simp [forHandleExpression, h1, h2, hne]
  · intro he
    simp [forHandleExpression, h1, h2, he]
  · intro v he
    simp [forHandleExpression, h1, h2, he]
  · show _ = "; " ++ st.cvar ++ " <= " ++ st.toExpr ++ "; " ++ st.cvar ++ " += 0)"
    simp [forHandleBegin, jsLtZero, string_append_assoc]
    rfl

/-- Witness for the amended C1 at a concrete state: a REAL step is
rejected, a non-constant step is rejected, a constant 0 step is accepted
and emits an increment by 0. -/
theorem for_by_requires_integer_constant_witness :
    (OType.basic BasicK.real ≠ OType.basic BasicK.integer)
    ∧ forHandleExpression ⟨"i", true, "10", true, false, none⟩ (OType.basic BasicK.real) (some 0)
        = Except.error (ForError.byIntegerExpected "REAL")
    ∧ forHandleExpression ⟨"i", true, "10", true, false, none⟩ (OType.basic BasicK.integer) none
        = Except.error ForError.byConstExpected
    ∧ forHandleExpression ⟨"i", true, "10", true, false, none⟩ (OType.basic BasicK.integer) (some 0)
        = Except.ok ⟨"i", true, "10", true, false, some 0⟩
    ∧ forHandleBegin ⟨"i", true, "10", true, false, some 0⟩ = "; i <= 10; i += 0)" := by
  have h := for_by_requires_integer_constant ⟨"i", true, "10", true, false, none⟩
    (OType.basic BasicK.real) rfl rfl
  have h2 := for_by_requires_integer_constant ⟨"i", true, "10", true, false, none⟩
    (OType.basic BasicK.integer) rfl rfl
  exact ⟨by decide, h.1 (by decide), h2.2.1 rfl, h2.2.2.1 0 rfl, h2.2.2.2⟩

/- ========= Guarded cast / type test (source: checkTypeCast, lines 97-132) ========= -/

/-- Source: `fromType instanceof Type.Pointer`. -/
def OType.isPointerT : OType → Bool
  | .pointer _ => true
  | _ => false

/-- Source: `fromType instanceof Type.Record`. -/
def OType.isRecordT : OType → Bool
  | .record _ => true
  | _ => false

/-- Source: the pointer unwrapping of checkTypeCast (lines 121-124):
`if (t instanceof Type.Pointer) t = Type.pointerBase(t)`; a pointer base
always resolves to a record (data-model invariant). -/
def unwrapPointerBase : OType → OType
  | .pointer r => .record r
  | t => t

/-- Source: the base-chain walk of checkTypeCast (lines 126-128):
`t = recordBase(toType); while (t && t != fromType) t = recordBase(t)`.
True exactly when the walk stops on a chain element equal to the source
type; false when the chain ends. -/
def strictBaseChainHas (src : OType) : RecordT → Bool
  | .root _ _ _ => false
  | .ext _ _ _ b => decide (OType.record b = src) || strictBaseChainHas src b

/-- The errors checkTypeCast can raise, each carrying the message pieces the
source interpolates (the `invalid cast/test` leading text and the involved
type descriptions). -/
inductive CastError where
  | pointerOrRecordExpected (pre got : String)
  | valueVariable (pre : String)
  | recordTypeExpected (pre got : String)
  | pointerTypeExpected (pre got : String)
  | notExtension (pre target source : String)
deriving DecidableEq, Repr

/-- Source: checkTypeCast (context.js lines 97-132).  `fromIsRef` is
`fromInfo.isReference()`; `m` is the message tag, "type cast" when called
from Designator.handleTypeCast (line 438) and "type test" when called from
RelationOps.is (line 901) — both call sites run exactly this function. -/
def checkTypeCast (fromIsRef : Bool) (fromType toType : OType) (m : String) :
    Except CastError Unit :=
  let pre := "invalid " ++ m
  let pointerExpected := fromType.isPointerT
  if !pointerExpected && !fromType.isRecordT then
    Except.error (CastError.pointerOrRecordExpected pre fromType.description)
  else if fromType.isRecordT && !fromIsRef then
    Except.error (CastError.valueVariable pre)
  else if fromType.isRecordT && !toType.isRecordT then
    Except.error (CastError.recordTypeExpected pre toType.description)
  else if pointerExpected && !toType.isPointerT then
    Except.error (CastError.pointerTypeExpected pre toType.description)
  else
    let fromT := unwrapPointerBase fromType
    let toT := unwrapPointerBase toType
    let found :=
      match toT with
      | OType.record rt => strictBaseChainHas fromT rt
      | _ => false
    if found then Except.ok ()
    else Except.error (CastError.notExtension pre toT.description fromT.description)

/-- C2: a guarded cast (and the type test, which runs the same function) is
valid exactly when the source static type is a pointer-to-record or a
by-reference record and, after unwrapping pointers on both sides, the
target record is found by walking its strict base chain down to the source
record; when the chain ends without matching, the failure is the
is-not-an-extension error, and a record value variable used as source
fails with the value-variable error. -/
theorem guarded_cast_requires_extension (fromIsRef : Bool) (fromType toType : OType) (m : String) :
    (checkTypeCast fromIsRef fromType toType m = Except.ok () ↔
      ((∃ rf rt, fromType = OType.pointer rf ∧ toType = OType.pointer rt ∧
          strictBaseChainHas (OType.record rf) rt = true)
       ∨ (∃ rf rt, fromType = OType.record rf ∧ fromIsRef = true ∧ toType = OType.record rt ∧
          strictBaseChainHas (OType.record rf) rt = true)))
    ∧ (∀ rf, fromType = OType.record rf → fromIsRef = false →
        checkTypeCast fromIsRef fromType toType m
          = Except.error (CastError.valueVariable ("invalid " ++ m)))
    ∧ (∀ rf rt, fromType = OType.record rf → fromIsRef = true → toType = OType.record rt →
        strictBaseChainHas (OType.record rf) rt = false →
        checkTypeCast fromIsRef fromType toType m
          = Except.error (CastError.notExtension ("invalid " ++ m)
              ("RECORD " ++ rt.rname) ("RECORD " ++ rf.rname)))
    ∧ (∀ rf rt, fromType = OType.pointer rf → toType = OType.pointer rt →
        strictBaseChainHas (OType.record rf) rt = false →
        checkTypeCast fromIsRef fromType toType m
          = Except.error (CastError.notExtension ("invalid " ++ m)
              ("RECORD " ++ rt.rname) ("RECORD " ++ rf.rname))) := by
  refine ⟨?_, ?_, ?_, ?_⟩
  · constructor
    · intro h
      cases fromType <;> cases toType <;>
        simp_all [checkTypeCast, OType.isPointerT, OType.isRecordT, unwrapPointerBase] <;>
        cases fromIsRef <;> simp_all
    · rintro (⟨rf, rt, hf, ht, hw⟩ | ⟨rf, rt, hf, hr, ht, hw⟩) <;> subst hf <;> subst ht <;>
        simp_all [checkTypeCast, OType.isPointerT, OType.isRecordT, unwrapPointerBase]
  · rintro rf rfl h
    subst h
    cases toType <;>
      simp [checkTypeCast, OType.isPointerT, OType.isRecordT]
  · rintro rf rt rfl h rfl hw
    subst h
    simp [checkTypeCast, OType.isPointerT, OType.isRecordT, unwrapPointerBase, hw,
      OType.description]
  · rintro rf rt rfl rfl hw
    cases fromIsRef <;>
      simp [checkTypeCast, OType.isPointerT, OType.isRecordT, unwrapPointerBase, hw,
        OType.description]

/-- Witness for C2 with records A, B extending A, and unrelated C: a
by-reference record cast from A to B succeeds, a value variable fails, a
cast from A to C fails with the is-not-an-extension error. -/
theorem guarded_cast_requires_extension_witness :
    checkTypeCast true (OType.record (RecordT.root "A" "" []))
        (OType.record (RecordT.ext "B" "" [] (RecordT.root "A" "" []))) "type cast"
      = Except.ok ()
    ∧ checkTypeCast false (OType.record (RecordT.root "A" "" []))
        (OType.record (RecordT.ext "B" "" [] (RecordT.root "A" "" []))) "type cast"
      = Except.error (CastError.valueVariable "invalid type cast")
    ∧ checkTypeCast true (OType.record (RecordT.root "A" "" []))
        (OType.record (RecordT.root "C" "" [])) "type test"
      = Except.error (CastError.notExtension "invalid type test" "RECORD C" "RECORD A") := by
  refine ⟨?_, ?_, ?_⟩
  · exact (guarded_cast_requires_extension true (OType.record (RecordT.root "A" "" []))
      (OType.record (RecordT.ext "B" "" [] (RecordT.root "A" "" []))) "type cast").1.mpr
      (Or.inr ⟨RecordT.root "A" "" [], RecordT.ext "B" "" [] (RecordT.root "A" "" []),
        rfl, rfl, rfl, by decide⟩)
  · exact (guarded_cast_requires_extension false (OType.record (RecordT.root "A" "" []))
      (OType.record (RecordT.ext "B" "" [] (RecordT.root "A" "" []))) "type cast").2.1
      (RecordT.root "A" "" []) rfl rfl
  · exact (guarded_cast_requires_extension true (OType.record (RecordT.root "A" "" []))
      (OType.record (RecordT.root "C" "" [])) "type test").2.2.1
      (RecordT.root "A" "" []) (RecordT.root "C" "" []) rfl rfl rfl (by decide)

/- ====== Procedure references in terms (source: Term.setDesignator, lines 1065-1081) ====== -/

/-- Kinds of scopes a resolved symbol can originate from: the source only
tests `scope instanceof Scope.Procedure`; every other owning scope is the
module scope. -/
inductive ScopeKind where
  | procedureScope
  | moduleScope
deriving DecidableEq, Repr

/-- The designator info as Term.setDesignator inspects it: a procedure
identifier (standard or declared, with the description text used in the
message), or any other symbol info, which this check lets through. -/
inductive TermDInfo where
  | procedureId (isStd : Bool) (desc : String)
  | otherInfo
deriving DecidableEq, Repr

/-- Errors of the reference-validation in Term.setDesignator. -/
inductive TermError where
  | stdCannotBeReferenced (desc : String)
  | localProcCannotBeReferenced (code : String)
deriving DecidableEq, Repr

/-- Source: the validation part of Term.setDesignator (context.js lines
1065-1074): a designator denoting a procedure used as a value fails when
the procedure is standard (`proc instanceof Procedure.Std`) or when its
owning scope is a procedure scope (`scope instanceof Scope.Procedure`). -/
def termSetDesignatorCheck (info : TermDInfo) (scope : ScopeKind) (code : String) :
    Except TermError Unit :=
  match info with
  | TermDInfo.procedureId isStd desc =>
    if isStd then Except.error (TermError.stdCannotBeReferenced desc)
    else if scope = ScopeKind.procedureScope then
      Except.error (TermError.localProcCannotBeReferenced code)
    else Except.ok ()
  | TermDInfo.otherInfo => Except.ok ()

/-- C10: a standard procedure used as an expression value is rejected in
every scope, a non-standard procedure declared in a procedure-local scope
is rejected, and a non-standard procedure declared at module scope is the
only case accepted. -/
theorem term_procedure_reference_restrictions (scope : ScopeKind) (code desc : String) :
    termSetDesignatorCheck (TermDInfo.procedureId true desc) scope code
      = Except.error (TermError.stdCannotBeReferenced desc)
    ∧ termSetDesignatorCheck (TermDInfo.procedureId false desc) ScopeKind.procedureScope code
      = Except.error (TermError.localProcCannotBeReferenced code)
    ∧ termSetDesignatorCheck (TermDInfo.procedureId false desc) ScopeKind.moduleScope code
      = Except.ok () := by
  exact ⟨rfl, rfl, rfl⟩

/- ====== Type section close (source: exports.TypeSection, lines 1836-1855) ====== -/

/-- Modelled from the spec: the Scope module (js/Scope.js, external to
src/) tracks, per scope, the forward-type markers still unresolved
(Scope.addUnresolved registers a name when TypeSection.handleMessage sees a
forward reference, Scope.resolve removes it when the definition arrives)
alongside the declared symbols.  Only the unresolved list is read when the
section closes; the declared symbols are carried to state that they play no
part in it. -/
structure ScopeModel where
  declaredSymbols : List String
  unresolved : List String
deriving DecidableEq, Repr

/-- Modelled from the spec: Scope.addUnresolved registers a pending
forward-type name (TypeSection.handleMessage, line 1843). -/
def scopeAddUnresolved (s : ScopeModel) (id : String) : ScopeModel :=
  { s with unresolved := s.unresolved ++ [id] }

/-- Modelled from the spec: Scope.resolve drops the name of a now-defined
type from the unresolved list (TypeDeclaration.setType, line 1824). -/
def scopeResolve (s : ScopeModel) (id : String) : ScopeModel :=
  { s with unresolved := s.unresolved.filter (fun n => n ≠ id) }

/-- The type-section close failure; it carries the full list of names the
source interpolates into the no-declaration-found message. -/
inductive TypeSectionError where
  | noDeclarationFound (names : List String)
deriving DecidableEq, Repr

/-- Source: TypeSection.endParse (context.js lines 1850-1854): closing the
section reads the unresolved forward names of the current scope and fails,
naming all of them joined into one message, when any remain. -/
def typeSectionEndParse (s : ScopeModel) : Except TypeSectionError Unit :=
  if s.unresolved.isEmpty then Except.ok ()
  else Except.error (TypeSectionError.noDeclarationFound s.unresolved)

/-- C8: closing a type section with no pending forward-type placeholder
succeeds; closing one with at least one pending placeholder fails with the
unresolved-forward-type error carrying every undeclared name — whatever
symbols were otherwise declared in the section. -/
theorem type_section_close_forward_placeholders (s : ScopeModel) :
    (s.unresolved = [] → typeSectionEndParse s = Except.ok ())
    ∧ (s.unresolved ≠ [] →
        typeSectionEndParse s
          = Except.error (TypeSectionError.noDeclarationFound s.unresolved)) := by
  constructor
  · intro h
    simp [typeSectionEndParse, h]
  · intro h
    simp [typeSectionEndParse, h]

/-- Witness for C8: a section that declared two symbols and has no pending
placeholder closes fine; one with two never-defined placeholders fails
naming both, despite a declared symbol. -/
theorem type_section_close_forward_placeholders_witness :
    typeSectionEndParse ⟨["T", "U"], []⟩ = Except.ok ()
    ∧ typeSectionEndParse ⟨["T"], ["P", "Q"]⟩
      = Except.error (TypeSectionError.noDeclarationFound ["P", "Q"]) :=
  ⟨(type_section_close_forward_placeholders ⟨["T", "U"], []⟩).1 rfl,
   (type_section_close_forward_placeholders ⟨["T"], ["P", "Q"]⟩).2 (by decide)⟩

/- ==== Constant index bound check (source: Designator.__handleIndexExpression,
_indexSequence and _checkIndexValue, lines 351-410) ==== -/

/-- Errors of the indexing step. -/
inductive IndexError where
  | arrayOrStringExpected (got : String)
  | emptyString
  | negativeIndex (got : Int)
  | indexOutOfBounds (maxIndex : Int) (got : Int)
deriving DecidableEq, Repr

/-- Modelled from the spec: Code.checkIndex lives in the external Code
module; the spec only calls for validating constant indices, so it is
modelled as rejecting negative constant values.  The bound check the claim
is about follows it in the source and is embedded verbatim below. -/
def codeCheckIndex (v : Int) : Except IndexError Unit :=
  if v < 0 then Except.error (IndexError.negativeIndex v) else Except.ok ()

/-- Source: the type checks and length computation of
Designator._indexSequence (context.js lines 383-393): a non-array
non-string operand fails at once; a StaticArray reports its declared
length, an open array undefined, a string its character count
(`Type.stringLen`) — but a length-0 string is rejected right here
(`cannot index empty string`, lines 392-393), before any bound check can
run. -/
def indexSequenceLength : OType → Except IndexError (Option Nat)
  | OType.staticArray _ n => Except.ok (some n)
  | OType.openArray _ => Except.ok none
  | OType.strT n =>
    if n = 0 then Except.error IndexError.emptyString else Except.ok (some n)
  | t => Except.error (IndexError.arrayOrStringExpected t.description)

/-- Source: `t instanceof Type.StaticArray || t instanceof Type.String`
(line 371). -/
def OType.isStaticArrayOrString : OType → Bool
  | .staticArray _ _ => true
  | .strT _ => true
  | _ => false

/-- Source: Designator._checkIndexValue (context.js lines 363-376): with no
constant value it returns at once; with one, the value is validated and,
when the designator type is a statically sized array or string whose length
the index reaches, translation fails naming the maximum possible index.
An undefined length (open array) never satisfies the comparison, like the
JavaScript `value >= undefined`. -/
def checkIndexValue (currentType : OType) (len : Option Nat) (pValue : Option Int) :
    Except IndexError Unit :=
  match pValue with
  | none => Except.ok ()
  | some v =>
    match codeCheckIndex v with
    | Except.error e => Except.error e
    | Except.ok _ =>
      match len with
      | some l =>
        if currentType.isStaticArrayOrString && decide ((l : Int) ≤ v) then
          Except.error (IndexError.indexOutOfBounds ((l : Int) - 1) v)
        else Except.ok ()
      | none => Except.ok ()

/-- Source: Designator.__handleIndexExpression (context.js lines 351-356)
runs _indexSequence first — whose failures therefore come first — and then
_checkIndexValue on the length it produced. -/
def handleIndexBoundCheck (currentType : OType) (pValue : Option Int) :
    Except IndexError Unit := do
  let len ← indexSequenceLength currentType
  checkIndexValue currentType len pValue

/-- C3 counterexample: for a fixed-length string of length N = 0 and the
constant index v = 0 (so v ≥ N), the indexing step does not fail with the
index-out-of-bounds error naming N-1 = -1 as the claim states for every N —
_indexSequence rejects the empty string first, with a different error. -/
theorem empty_string_index_fails_before_bound_check :
    handleIndexBoundCheck (OType.strT 0) (some 0) = Except.error IndexError.emptyString
    ∧ handleIndexBoundCheck (OType.strT 0) (some 0)
      ≠ Except.error (IndexError.indexOutOfBounds (0 - 1) 0) := by
  refine ⟨rfl, ?_⟩
  intro h
  exact absurd (Except.error.inj h) (by decide)

/-- C3 as amended: indexing a statically sized array of length N or a
fixed-length string of length N ≥ 1 with a compile-time constant v ≥ N
fails with the index-out-of-bounds error naming the maximum possible index
N-1; a fixed-length string of length 0 instead fails earlier, inside the
index sequencing, with the cannot-index-empty-string error, whether or not
the index is constant; and an index expression carrying no compile-time
constant never triggers the bound check at translation time. -/
theorem constant_index_bound_check (elem currentType : OType) (n : Nat) (v : Int)
    (ht : currentType = OType.staticArray elem n
      ∨ (currentType = OType.strT n ∧ 1 ≤ n))
    (hv : (n : Int) ≤ v) :
    handleIndexBoundCheck currentType (some v)
      = Except.error (IndexError.indexOutOfBounds ((n : Int) - 1) v)
    ∧ (∀ (t : OType) (maxI got : Int),
        handleIndexBoundCheck t none ≠ Except.error (IndexError.indexOutOfBounds maxI got))
    ∧ (∀ pv : Option Int,
        handleIndexBoundCheck (OType.strT 0) pv = Except.error IndexError.emptyString) := by
  refine ⟨?_, ?_, ?_⟩
  · have hv0 : ¬ v < 0 := by omega
    rcases ht with rfl | ⟨rfl, hn⟩
    · simp [handleIndexBoundCheck, indexSequenceLength, checkIndexValue, codeCheckIndex,
        OType.isStaticArrayOrString, hv0, hv, bind, Except.bind]
    · have hn0 : n ≠ 0 := by omega
      simp [handleIndexBoundCheck, indexSequenceLength, checkIndexValue, codeCheckIndex,
        OType.isStaticArrayOrString, hv0, hv, hn0, bind, Except.bind]
  · intro t maxI got
    cases t
    case strT len =>
      by_cases h0 : len = 0 <;>
        simp [handleIndexBoundCheck, indexSequenceLength, checkIndexValue, h0,
          bind, Except.bind]
    all_goals
      simp [handleIndexBoundCheck, indexSequenceLength, checkIndexValue,
        bind, Except.bind]
  · intro pv
    simp [handleIndexBoundCheck, indexSequenceLength, bind, Except.bind]

/-- Witness for the amended C3: index 5 into ARRAY 3 OF INTEGER fails
naming maximum index 2, index 4 into a length-4 string fails naming 3, a
constant-free index never produces the bound error, and an empty string
fails with its own error. -/
theorem constant_index_bound_check_witness :
    handleIndexBoundCheck (OType.staticArray (OType.basic BasicK.integer) 3) (some 5)
      = Except.error (IndexError.indexOutOfBounds 2 5)
    ∧ handleIndexBoundCheck (OType.strT 4) (some 4)
      = Except.error (IndexError.indexOutOfBounds 3 4)
    ∧ handleIndexBoundCheck (OType.openArray (OType.basic BasicK.integer)) none
      ≠ Except.error (IndexError.indexOutOfBounds 2 5)
    ∧ handleIndexBoundCheck (OType.strT 0) (some 9) = Except.error IndexError.emptyString := by
  have h1 := constant_index_bound_check (OType.basic BasicK.integer)
    (OType.staticArray (OType.basic BasicK.integer) 3) 3 5 (Or.inl rfl) (by decide)
  have h2 := constant_index_bound_check (OType.basic BasicK.integer)
    (OType.strT 4) 4 4 (Or.inr ⟨rfl, by decide⟩) (by decide)
  exact ⟨h1.1, h2.1, h1.2.1 (OType.openArray (OType.basic BasicK.integer)) 2 5,
    h1.2.2 (some 9)⟩

/- ===== Reference-producing code (source: Designator.__makeRefCode, lines 452-459) ===== -/

/-- Modelled from the spec: `Type.isScalar` lives in the external Types
module; basic values, pointers and procedure values are scalar, while
arrays, records and string literals are aggregates. -/
def OType.isScalar : OType → Bool
  | .basic _ => true
  | .pointer _ => true
  | .procT _ => true
  | .nilT => true
  | _ => false

/-- Source: the JavaScript truthiness test `if (this.__derefCode)` — an
absent or empty deref-code string is falsy. -/
def strTruthy : Option String → Bool
  | none => false
  | some s => !s.isEmpty

/-- Modelled from the spec: `rtl.makeRef` is the runtime-library
mutable-cell builder invoked by generated code for dynamic paths. -/
def rtlMakeRef (derefCode propCode : String) : String :=
  "RTL$.makeRef(" ++ derefCode ++ ", " ++ propCode ++ ")"

/-- Source: Designator.__makeRefCode (context.js lines 452-459): aggregates
and by-reference variables return their access code unchanged; a scalar
reached through a dynamic path (deref code present) becomes a runtime
makeRef cell; every other scalar — a directly reached scalar local —
becomes an inline set/get closure cell over its access code. -/
def makeRefCode (currentType : OType) (isRef : Bool) (derefCode : Option String)
    (propCode code : String) : String :=
  if !currentType.isScalar || isRef then code
  else if strTruthy derefCode then rtlMakeRef (derefCode.getD "") propCode
  else "\x7bset: function($v)\x7b" ++ code ++ " = $v;\x7d, get: function()\x7breturn "
    ++ code ++ ";\x7d\x7d"

/-- C5 counterexample: a scalar local variable reached directly (scalar
type, not a by-reference variable, no dynamic path) does NOT pass its value
by value with no cell — __makeRefCode builds an inline set/get mutable-cell
closure over it, so the reference code differs from the plain access code. -/
theorem direct_scalar_local_gets_closure_cell :
    makeRefCode (OType.basic BasicK.integer) false none "" "x"
      = "\x7bset: function($v)\x7bx = $v;\x7d, get: function()\x7breturn x;\x7d\x7d"
    ∧ makeRefCode (OType.basic BasicK.integer) false none "" "x" ≠ "x" := by
  constructor
  · rfl
  · decide

/-- C5 as amended: the reference-producing code builds a mutable cell for
EVERY scalar that is not already by-reference — through the runtime makeRef
helper when the scalar was reached through a dynamic path (array element or
field behind a pointer dereference, i.e. deref code present), and through
an inline set/get closure when a scalar local is reached directly; only
aggregates and by-reference variables pass their access code unchanged, and
the closure cell is never equal to the plain access code. -/
theorem ref_code_cell_construction (t : OType) (isRef : Bool) (d : Option String)
    (p code : String) :
    ((t.isScalar = false ∨ isRef = true) → makeRefCode t isRef d p code = code)
    ∧ (t.isScalar = true → isRef = false → strTruthy d = true →
        makeRefCode t isRef d p code = rtlMakeRef (d.getD "") p)
    ∧ (t.isScalar = true → isRef = false → strTruthy d = false →
        makeRefCode t isRef d p code
          = "\x7bset: function($v)\x7b" ++ code ++ " = $v;\x7d, get: function()\x7breturn "
            ++ code ++ ";\x7d\x7d"
        ∧ makeRefCode t isRef d p code ≠ code) := by
  refine ⟨?_, ?_, ?_⟩
  · rintro (h | h) <;> simp [makeRefCode, h]
  · intro hs hr hd
    simp [makeRefCode, hs, hr, hd]
  · intro hs hr hd
    have hbig : makeRefCode t isRef d p code
        = "\x7bset: function($v)\x7b" ++ code ++ " = $v;\x7d, get: function()\x7breturn "
          ++ code ++ ";\x7d\x7d" := by
      simp [makeRefCode, hs, hr, hd]
    refine ⟨hbig, ?_⟩
    rw [hbig]
    intro heq
    have h1 := congrArg String.length heq
    rw [String.length_append, String.length_append, String.length_append,
      String.length_append] at h1
    have hA : 0 < ("\x7bset: function($v)\x7b" : String).length := by decide
    omega

/-- Witness for the amended C5: a record variable passes unchanged, an
array-element scalar becomes a makeRef cell, a direct scalar local becomes
a closure cell distinct from its access code. -/
theorem ref_code_cell_construction_witness :
    makeRefCode (OType.record (RecordT.root "R" "" [])) false none "" "r" = "r"
    ∧ makeRefCode (OType.basic BasicK.integer) false (some "a") "i" "a[i]"
      = "RTL$.makeRef(a, i)"
    ∧ makeRefCode (OType.basic BasicK.integer) false none "" "x"
      = "\x7bset: function($v)\x7bx = $v;\x7d, get: function()\x7breturn x;\x7d\x7d"
    ∧ makeRefCode (OType.basic BasicK.integer) false none "" "x" ≠ "x" := by
  have h1 := (ref_code_cell_construction (OType.record (RecordT.root "R" "" []))
    false none "" "r").1 (Or.inl rfl)
  have h2 := (ref_code_cell_construction (OType.basic BasicK.integer)
    false (some "a") "i" "a[i]").2.1 rfl rfl rfl
  have h3 := (ref_code_cell_construction (OType.basic BasicK.integer)
    false none "" "x").2.2 rfl rfl rfl
  exact ⟨h1, h2, h3.1, h3.2⟩

/- ===== Record constructor synthesis (source: RecordDecl, lines 1728-1805) ===== -/

/-- Helper: appending the empty string on the right changes nothing. -/
theorem string_append_empty (s : String) : s ++ "" = s := by
  apply String.ext
  simp [String.data_append]

/-- Helper: concatenation of a list of strings, used to characterise the
field-initialization fold. -/
def concatList : List String → String
  | [] => ""
  | s :: rest => s ++ concatList rest

/-- Modelled from the spec: `Type.mangleField` lives in the external Types
module; mangling only renames reserved target-language words, so it is
modelled as the identity on field names. -/
def mangleField (f : String) : String := f

/-- Source: the assignment RecordDecl.__generateFieldsInitializationCode
emits per own field (line 1791). -/
def fieldAssignCode (f : RField) : String :=
  "this." ++ mangleField f.fname ++ " = " ++ f.initCode ++ ";\n"

/-- Source: RecordDecl.__generateFieldsInitializationCode (lines
1786-1794): a fold over exactly the own fields of the record, appending one
default-initializer assignment each. -/
def generateFieldsInitializationCode (r : RecordT) : String :=
  r.ownFields.foldl (fun acc f => acc ++ fieldAssignCode f) ""

/-- Source: RecordDecl._qualifiedBaseConstructor (lines 1774-1779). -/
def qualifiedBaseConstructor (r : RecordT) : String :=
  match r.base? with
  | none => ""
  | some b => b.qual ++ b.rname

/-- Source: RecordDecl._generateBaseConstructorCallCode (lines 1780-1785):
`return result ? result + ".call(this);" : ""` — the call is emitted
exactly when the qualified base constructor name is a nonempty string. -/
def generateBaseConstructorCallCode (r : RecordT) : String :=
  let result := qualifiedBaseConstructor r
  if result.isEmpty then "" else result ++ ".call(this);\n"

/-- Source: RecordDecl._generateConstructor (lines 1765-1773): the
constructor function header, then inside one block the base-constructor
call code followed by the own-field initializations.  The code-generator
openScope/closeScope bracket (external emitter; spec section 6) is
modelled as plain braces without indentation. -/
def generateConstructor (r : RecordT) : String :=
  "function " ++ r.rname ++ "()" ++ "\x7b\n"
    ++ (generateBaseConstructorCallCode r ++ generateFieldsInitializationCode r)
    ++ "\x7d"

/-- Helper: the field-initialization fold from any accumulator is that
accumulator followed by the concatenation of the per-field assignments. -/
theorem foldl_fieldAssign_eq_concat (l : List RField) (s : String) :
    l.foldl (fun acc f => acc ++ fieldAssignCode f) s
      = s ++ concatList (l.map fieldAssignCode) := by
  induction l generalizing s with
  | nil => simp [concatList, string_append_empty]
  | cons f fs ih =>
    simp [concatList, ih, string_append_assoc]

/-- C4: the generated record constructor consists of the header, then a
base-constructor call emitted exactly when a base is declared (and nothing
otherwise), then one default-initializer assignment per own field, in
declaration order and nothing else; the own-field initialization code is
completely independent of the base record, so inherited fields are never
re-initialized. -/
theorem record_constructor_chains_base_then_own_fields (r : RecordT) :
    (r.base? = none → generateBaseConstructorCallCode r = "")
    ∧ (∀ b, r.base? = some b → (b.qual ++ b.rname).isEmpty = false →
        generateBaseConstructorCallCode r = b.qual ++ b.rname ++ ".call(this);\n")
    ∧ generateFieldsInitializationCode r = concatList (r.ownFields.map fieldAssignCode)
    ∧ (∀ n q f b, generateFieldsInitializationCode (RecordT.ext n q f b)
        = generateFieldsInitializationCode (RecordT.root n q f))
    ∧ generateConstructor r
      = "function " ++ r.rname ++ "()" ++ "\x7b\n"
        ++ (generateBaseConstructorCallCode r
            ++ concatList (r.ownFields.map fieldAssignCode))
        ++ "\x7d" := by
  refine ⟨?_, ?_, ?_, ?_, ?_⟩
  · intro h
    simp only [generateBaseConstructorCallCode, qualifiedBaseConstructor, h]
    rfl
  · intro b hb hne
    simp [generateBaseConstructorCallCode, qualifiedBaseConstructor, hb, hne,
      string_append_assoc]
  · exact foldl_fieldAssign_eq_concat r.ownFields ""
  · intro n q f b
    simp [generateFieldsInitializationCode, RecordT.ownFields]
  · simp [generateConstructor, foldl_fieldAssign_eq_concat,
      generateFieldsInitializationCode]

/-- Witness for C4 with base fields a, b and derived own field c: the
derived constructor calls the base constructor then initializes only c, and
its field-initialization code equals that of the same fields with no base. -/
theorem record_constructor_chains_base_then_own_fields_witness :
    generateBaseConstructorCallCode
        (RecordT.ext "Derived" "" [⟨"c", "0"⟩] (RecordT.root "Base" "" [⟨"a", "0"⟩, ⟨"b", "0"⟩]))
      = "Base.call(this);\n"
    ∧ generateConstructor
        (RecordT.ext "Derived" "" [⟨"c", "0"⟩] (RecordT.root "Base" "" [⟨"a", "0"⟩, ⟨"b", "0"⟩]))
      = "function Derived()\x7b\nBase.call(this);\nthis.c = 0;\n\x7d"
    ∧ generateFieldsInitializationCode
        (RecordT.ext "Derived" "" [⟨"c", "0"⟩] (RecordT.root "Base" "" [⟨"a", "0"⟩, ⟨"b", "0"⟩]))
      = generateFieldsInitializationCode (RecordT.root "Derived" "" [⟨"c", "0"⟩]) := by
  have h := record_constructor_chains_base_then_own_fields
    (RecordT.ext "Derived" "" [⟨"c", "0"⟩] (RecordT.root "Base" "" [⟨"a", "0"⟩, ⟨"b", "0"⟩]))
  refine ⟨?_, ?_, ?_⟩
  · exact h.2.1 (RecordT.root "Base" "" [⟨"a", "0"⟩, ⟨"b", "0"⟩]) rfl (by decide)
  · rw [h.2.2.2.2, h.2.1 (RecordT.root "Base" "" [⟨"a", "0"⟩, ⟨"b", "0"⟩]) rfl (by decide)]
    rfl
  · exact h.2.2.2.1 "Derived" "" [⟨"c", "0"⟩] (RecordT.root "Base" "" [⟨"a", "0"⟩, ⟨"b", "0"⟩])

/- == Relational operator resolution (source: RelationOps / relationOp, lines 842-983) == -/

/-- The concrete code-generating operations relational resolution can pick
(the op.* values of the external Operator module; only their identity
matters here). -/
inductive BinOp where
  | equalInt
  | equalStr
  | equalReal
  | equalSet
  | notEqualInt
  | notEqualStr
  | notEqualReal
  | notEqualSet
  | lessInt
  | lessStr
  | lessReal
  | greaterInt
  | greaterStr
  | greaterReal
  | eqLessInt
  | eqLessStr
  | eqLessReal
  | setInclL
  | eqGreaterInt
  | eqGreaterStr
  | eqGreaterReal
  | setInclR
  | isOp
  | setHasBitOp
deriving DecidableEq, Repr

/-- Modelled from the spec: `Type.isInt` of the external Types module;
INTEGER is the integer kind of this model. -/
def isIntT : OType → Bool
  | .basic .integer => true
  | _ => false

/-- Modelled from the spec: `Type.isString` of the external Types module;
string literals and character arrays count as strings. -/
def isStringT : OType → Bool
  | .strT _ => true
  | .staticArray (.basic .ch) _ => true
  | .openArray (.basic .ch) => true
  | _ => false

/-- Source: `t instanceof Type.Procedure`. -/
def OType.isProcT : OType → Bool
  | .procT _ => true
  | _ => false

/-- Source: useIntOrderOp (context.js lines 842-844). -/
def useIntOrderOp (t : OType) : Bool :=
  isIntT t || decide (t = OType.basic BasicK.ch)

/-- Source: useIntEqOp (context.js lines 846-853). -/
def useIntEqOp (t : OType) : Bool :=
  isIntT t || decide (t = OType.basic BasicK.bool) || decide (t = OType.basic BasicK.ch)
    || t.isPointerT || t.isProcT || decide (t = OType.nilT)

/-- Source: RelationOps.eq (lines 858-864). -/
def relOpsEq (t : OType) : Option BinOp :=
  if useIntEqOp t then some BinOp.equalInt
  else if isStringT t then some BinOp.equalStr
  else if t = OType.basic BasicK.real then some BinOp.equalReal
  else if t = OType.basic BasicK.set then some BinOp.equalSet
  else none

/-- Source: RelationOps.notEq (lines 865-871). -/
def relOpsNotEq (t : OType) : Option BinOp :=
  if useIntEqOp t then some BinOp.notEqualInt
  else if isStringT t then some BinOp.notEqualStr
  else if t = OType.basic BasicK.real then some BinOp.notEqualReal
  else if t = OType.basic BasicK.set then some BinOp.notEqualSet
  else none

/-- Source: RelationOps.less (lines 872-877) — no SET alternative. -/
def relOpsLess (t : OType) : Option BinOp :=
  if useIntOrderOp t then some BinOp.lessInt
  else if isStringT t then some BinOp.lessStr
  else if t = OType.basic BasicK.real then some BinOp.lessReal
  else none

/-- Source: RelationOps.greater (lines 878-883) — no SET alternative. -/
def relOpsGreater (t : OType) : Option BinOp :=
  if useIntOrderOp t then some BinOp.greaterInt
  else if isStringT t then some BinOp.greaterStr
  else if t = OType.basic BasicK.real then some BinOp.greaterReal
  else none

/-- Source: RelationOps.lessEq (lines 884-890) — SET means inclusion. -/
def relOpsLessEq (t : OType) : Option BinOp :=
  if useIntOrderOp t then some BinOp.eqLessInt
  else if isStringT t then some BinOp.eqLessStr
  else if t = OType.basic BasicK.real then some BinOp.eqLessReal
  else if t = OType.basic BasicK.set then some BinOp.setInclL
  else none

/-- Source: RelationOps.greaterEq (lines 891-897) — SET means inclusion. -/
def relOpsGreaterEq (t : OType) : Option BinOp :=
  if useIntOrderOp t then some BinOp.eqGreaterInt
  else if isStringT t then some BinOp.eqGreaterStr
  else if t = OType.basic BasicK.real then some BinOp.eqGreaterReal
  else if t = OType.basic BasicK.set then some BinOp.setInclR
  else none

/-- Source: RelationOps.eqExpect (line 905). -/
def eqExpect : String :=
  "numeric type or SET or BOOLEAN or CHAR or character array or POINTER or PROCEDURE"

/-- Source: RelationOps.strongRelExpect (line 906). -/
def strongRelExpect : String := "numeric type or CHAR or character array"

/-- Source: RelationOps.relExpect (line 907). -/
def relExpect : String := "numeric type or SET or CHAR or character array"

/-- Modelled from the spec: `Cast.findPointerBaseType` of the external Cast
module — two pointers coalesce when the second pointer record is the first
pointer record or an extension of it; the result is the first (base)
pointer type. -/
def findPointerBaseType : OType → OType → Option OType
  | OType.pointer r1, OType.pointer r2 =>
    if decide (r2 = r1) || strictBaseChainHas (OType.record r1) r2 then
      some (OType.pointer r1)
    else none
  | _, _ => none

/-- Modelled from the spec: `Cast.areTypesMatch` of the external Cast
module — outside the special pointer and string cases, relational operands
must match exactly. -/
def areTypesMatch (a b : OType) : Bool := decide (a = b)

/-- Failures of relational operator resolution. -/
inductive OpError where
  | operatorTypeMismatch (opText expected got : String)
  | typeMismatch (expectedDesc gotDesc : String)
  | setElementExpected (got : String)
deriving DecidableEq, Repr

/-- Source: RelationOps.coalesceType (lines 908-923): two pointers coalesce
to a common base when one exists; two character strings compare directly;
everything else must match exactly (else TypeMismatch), yielding the left
type. -/
def coalesceType (leftType rightType : OType) : Except OpError OType :=
  let pointerCoalesced : Option OType :=
    match leftType, rightType with
    | OType.pointer _, OType.pointer _ =>
      match findPointerBaseType leftType rightType with
      | some t => some t
      | none => findPointerBaseType rightType leftType
    | _, _ => none
  match pointerCoalesced with
  | some t => Except.ok t
  | none =>
    let isStrings := isStringT leftType && isStringT rightType
    if !isStrings && !areTypesMatch rightType leftType then
      Except.error (OpError.typeMismatch leftType.description rightType.description)
    else Except.ok leftType

/-- Source: checkSetHasBit (lines 928-933); the implicit cast of the right
operand to SET is modelled from the spec (section 4.3): the only implicit
conversions are between numeric kinds, so the cast to SET succeeds for SET
alone. -/
def checkSetHasBit (leftType rightType : OType) : Except OpError Unit :=
  if !isIntT leftType then
    Except.error (OpError.setElementExpected leftType.description)
  else if rightType ≠ OType.basic BasicK.set then
    Except.error (OpError.typeMismatch (OType.basic BasicK.set).description
      rightType.description)
  else Except.ok ()

/-- The eight relation tokens the parser can hand to relationOp. -/
inductive RelLiteral where
  | eqL
  | neL
  | ltL
  | gtL
  | leL
  | geL
  | isL
  | inL
deriving DecidableEq, Repr

/-- Source: relationOp (context.js lines 935-983).  The literal is one of
the eight relation tokens.  For IS the source takes the target type from
the right operand symbol (unwrapType); the model receives that type
directly.  The IS operation itself delegates to checkTypeCast (the same
walk verified for C2) at evaluation time. -/
def relationOp (leftType rightType : OType) (literal : RelLiteral) :
    Except OpError BinOp := do
  let t ←
    (match literal with
    | RelLiteral.isL => Except.ok rightType
    | RelLiteral.inL => do
      checkSetHasBit leftType rightType
      Except.ok leftType
    | _ => coalesceType leftType rightType)
  match literal with
  | RelLiteral.eqL =>
    match relOpsEq t with
    | some o => Except.ok o
    | none => Except.error (OpError.operatorTypeMismatch "=" eqExpect t.description)
  | RelLiteral.neL =>
    match relOpsNotEq t with
    | some o => Except.ok o
    | none => Except.error (OpError.operatorTypeMismatch "#" eqExpect t.description)
  | RelLiteral.ltL =>
    match relOpsLess t with
    | some o => Except.ok o
    | none => Except.error (OpError.operatorTypeMismatch "<" strongRelExpect t.description)
  | RelLiteral.gtL =>
    match relOpsGreater t with
    | some o => Except.ok o
    | none => Except.error (OpError.operatorTypeMismatch ">" strongRelExpect t.description)
  | RelLiteral.leL =>
    match relOpsLessEq t with
    | some o => Except.ok o
    | none => Except.error (OpError.operatorTypeMismatch "<=" relExpect t.description)
  | RelLiteral.geL =>
    match relOpsGreaterEq t with
    | some o => Except.ok o
    | none => Except.error (OpError.operatorTypeMismatch ">=" relExpect t.description)
  | RelLiteral.isL => Except.ok BinOp.isOp
  | RelLiteral.inL => Except.ok BinOp.setHasBitOp

/-- C6: on two SET operands the strict orderings fail with the
operator-type-mismatch error naming the accepted classes, while non-strict
orderings resolve to the set-inclusion operations and equality and
inequality to the dedicated set-equality operations; and no ordering
operator at all resolves for BOOLEAN, pointer, or procedure operand
pairs. -/
theorem set_relations_and_missing_orderings (r : RecordT) (n : String) :
    relationOp (OType.basic BasicK.set) (OType.basic BasicK.set) RelLiteral.ltL
      = Except.error (OpError.operatorTypeMismatch "<"
          "numeric type or CHAR or character array" "SET")
    ∧ relationOp (OType.basic BasicK.set) (OType.basic BasicK.set) RelLiteral.gtL
      = Except.error (OpError.operatorTypeMismatch ">"
          "numeric type or CHAR or character array" "SET")
    ∧ relationOp (OType.basic BasicK.set) (OType.basic BasicK.set) RelLiteral.leL
      = Except.ok BinOp.setInclL
    ∧ relationOp (OType.basic BasicK.set) (OType.basic BasicK.set) RelLiteral.geL
      = Except.ok BinOp.setInclR
    ∧ relationOp (OType.basic BasicK.set) (OType.basic BasicK.set) RelLiteral.eqL
      = Except.ok BinOp.equalSet
    ∧ relationOp (OType.basic BasicK.set) (OType.basic BasicK.set) RelLiteral.neL
      = Except.ok BinOp.notEqualSet
    ∧ (∀ lit, lit = RelLiteral.ltL ∨ lit = RelLiteral.gtL ∨ lit = RelLiteral.leL
        ∨ lit = RelLiteral.geL →
        (∃ e, relationOp (OType.basic BasicK.bool) (OType.basic BasicK.bool) lit
          = Except.error e)
        ∧ (∃ e, relationOp (OType.pointer r) (OType.pointer r) lit = Except.error e)
        ∧ (∃ e, relationOp (OType.procT n) (OType.procT n) lit = Except.error e)) := by
  refine ⟨rfl, rfl, rfl, rfl, rfl, rfl, ?_⟩
  rintro lit (rfl | rfl | rfl | rfl)
  · refine ⟨⟨_, rfl⟩,
      ⟨OpError.operatorTypeMismatch "<" strongRelExpect ("POINTER TO " ++ r.rname), ?_⟩,
      ⟨OpError.operatorTypeMismatch "<" strongRelExpect ("PROCEDURE " ++ n), ?_⟩⟩ <;>
      simp [relationOp, coalesceType, findPointerBaseType, areTypesMatch, relOpsLess,
        useIntOrderOp, isIntT, isStringT, OType.description, bind, Except.bind]
  · refine ⟨⟨_, rfl⟩,
      ⟨OpError.operatorTypeMismatch ">" strongRelExpect ("POINTER TO " ++ r.rname), ?_⟩,
      ⟨OpError.operatorTypeMismatch ">" strongRelExpect ("PROCEDURE " ++ n), ?_⟩⟩ <;>
      simp [relationOp, coalesceType, findPointerBaseType, areTypesMatch, relOpsGreater,
        useIntOrderOp, isIntT, isStringT, OType.description, bind, Except.bind]
  · refine ⟨⟨_, rfl⟩,
      ⟨OpError.operatorTypeMismatch "<=" relExpect ("POINTER TO " ++ r.rname), ?_⟩,
      ⟨OpError.operatorTypeMismatch "<=" relExpect ("PROCEDURE " ++ n), ?_⟩⟩ <;>
      simp [relationOp, coalesceType, findPointerBaseType, areTypesMatch, relOpsLessEq,
        useIntOrderOp, isIntT, isStringT, OType.description, bind, Except.bind]
  · refine ⟨⟨_, rfl⟩,
      ⟨OpError.operatorTypeMismatch ">=" relExpect ("POINTER TO " ++ r.rname), ?_⟩,
      ⟨OpError.operatorTypeMismatch ">=" relExpect ("PROCEDURE " ++ n), ?_⟩⟩ <;>
      simp [relationOp, coalesceType, findPointerBaseType, areTypesMatch, relOpsGreaterEq,
        useIntOrderOp, isIntT, isStringT, OType.description, bind, Except.bind]

/-- Witness for C6 at a concrete pointer record and procedure name,
checking the no-ordering results exist for the less-than token. -/
theorem set_relations_and_missing_orderings_witness :
    (∃ e, relationOp (OType.basic BasicK.bool) (OType.basic BasicK.bool) RelLiteral.ltL
      = Except.error e)
    ∧ (∃ e, relationOp (OType.pointer (RecordT.root "P" "" [])) 
        (OType.pointer (RecordT.root "P" "" [])) RelLiteral.ltL = Except.error e)
    ∧ (∃ e, relationOp (OType.procT "Fn") (OType.procT "Fn") RelLiteral.ltL
      = Except.error e)
    ∧ relationOp (OType.basic BasicK.set) (OType.basic BasicK.set) RelLiteral.leL
      = Except.ok BinOp.setInclL :=
  ⟨((set_relations_and_missing_orderings (RecordT.root "P" "" []) "Fn").2.2.2.2.2.2
      RelLiteral.ltL (Or.inl rfl)).1,
   ((set_relations_and_missing_orderings (RecordT.root "P" "" []) "Fn").2.2.2.2.2.2
      RelLiteral.ltL (Or.inl rfl)).2.1,
   ((set_relations_and_missing_orderings (RecordT.root "P" "" []) "Fn").2.2.2.2.2.2
      RelLiteral.ltL (Or.inl rfl)).2.2,
   (set_relations_and_missing_orderings (RecordT.root "P" "" []) "Fn").2.2.1⟩

/- ======== Set literals (source: exports.Set / SetElement, lines 1128-1191) ======== -/

/-- JavaScript ToUint32 on the mathematical integers carried by constant
values. -/
def toUint32 (n : Int) : Nat := (n % (2 ^ 32 : Int)).toNat

/-- JavaScript ToInt32. -/
def toInt32 (n : Nat) : Int :=
  let u : Nat := n % 2 ^ 32
  if u < 2 ^ 31 then (u : Int) else (u : Int) - 2 ^ 32

/-- JavaScript `a | b` on numbers: both sides to UInt32, bitwise or, result
as Int32. -/
def jsOr (a b : Int) : Int := toInt32 (Nat.lor (toUint32 a) (toUint32 b))

/-- JavaScript `1 << i`: the shift count is masked to five bits and the
result is an Int32. -/
def jsShl1 (i : Int) : Int := toInt32 (Nat.shiftLeft 1 (toUint32 i % 32))

/-- Source: the constant-range loop of Set.handleElement (lines 1137-1138),
`for (i = fromValue; i <= toValue; ++i) value |= 1 << i`, encoded by its
iteration count so that it is structurally recursive. -/
def rangeBitsAux (v : Int) (lo : Int) : Nat → Int
  | 0 => v
  | k + 1 => rangeBitsAux (jsOr v (jsShl1 lo)) (lo + 1) k

/-- The loop runs once per integer from `lo` through `hi`. -/
def rangeBits (v lo hi : Int) : Int := rangeBitsAux v lo (hi + 1 - lo).toNat

/-- One element event as SetElement.endParse reports it to the Set context
(line 1189): the code text of the lower expression, its constant value when
one exists, and the code text and constant value of the upper expression
when the element is a range. -/
structure SetElemIn where
  srcCode : String
  srcVal : Option Int
  toCode : Option String
  toVal : Option Int
deriving DecidableEq, Repr

/-- The accumulated state of the Set context (source: SetContext.init):
the constant bit mask and the code text of the non-constant parts. -/
structure SetAcc where
  value : Int
  expr : String
deriving DecidableEq, Repr

/-- Source: Set.handleElement (context.js lines 1134-1150): an element
whose values are all constants folds its bit or bit-range into the mask;
any other element appends its code (comma-separated, a range as a
two-element bracket pair) to the runtime expression text.  The truthiness
tests mirror the JavaScript ones: a constant-value object is truthy when
present, the upper code string when present and nonempty. -/
def setHandleElement (acc : SetAcc) (e : SetElemIn) : SetAcc :=
  if e.srcVal.isSome && (!strTruthy e.toCode || e.toVal.isSome) then
    if strTruthy e.toCode then
      { acc with value := rangeBits acc.value (e.srcVal.getD 0) (e.toVal.getD 0) }
    else
      { acc with value := jsOr acc.value (jsShl1 (e.srcVal.getD 0)) }
  else
    { acc with expr :=
        (if acc.expr.length ≠ 0 then acc.expr ++ ", " else acc.expr)
        ++ (if strTruthy e.toCode then
              "[" ++ e.srcCode ++ ", " ++ e.toCode.getD "" ++ "]"
            else e.srcCode) }

/-- Modelled from the spec: `rtl.makeSet` is the runtime set-builder call
the generated code uses for non-constant elements. -/
def rtlMakeSet (e : String) : String := "RTL$.makeSet(" ++ e ++ ")"

/-- What the Set context reports upward at production end: either a folded
constant (handleConst with the literal mask) or a runtime expression
(handleFactor). -/
inductive SetResult where
  | constSet (value : Int) (code : String)
  | runtimeSet (code : String)
deriving DecidableEq, Repr

/-- Source: Set.endParse (context.js lines 1151-1162): an empty runtime
expression reports the folded constant with its mask emitted as a literal;
otherwise the runtime set-builder call over the collected parts, with the
constant bits or-ed on when they are nonzero. -/
def setEndParse (acc : SetAcc) : SetResult :=
  if acc.expr.length = 0 then
    SetResult.constSet acc.value (toString acc.value)
  else
    SetResult.runtimeSet
      (rtlMakeSet acc.expr
       ++ (if acc.value ≠ 0 then " | " ++ toString acc.value else ""))

/-- The Set context processes its element events in order from the initial
state (value 0, empty expression). -/
def processSetElements (elems : List SetElemIn) : SetAcc :=
  elems.foldl setHandleElement ⟨0, ""⟩

/-- An element takes the constant branch of handleElement exactly when its
lower value is constant and, for a range, the upper value too. -/
def constSetElem (e : SetElemIn) : Bool :=
  e.srcVal.isSome && (!strTruthy e.toCode || e.toVal.isSome)

/-- Helper: a constant element never touches the runtime expression. -/
theorem setHandleElement_const_expr (acc : SetAcc) (e : SetElemIn)
    (h : constSetElem e = true) : (setHandleElement acc e).expr = acc.expr := by
  unfold setHandleElement
  rw [constSetElem] at h
  rw [if_pos h]
  by_cases ht : strTruthy e.toCode = true <;> simp [ht]

/-- Helper: a non-constant element with nonempty code leaves the runtime
expression nonempty. -/
theorem setHandleElement_nonconst_expr (acc : SetAcc) (e : SetElemIn)
    (h : constSetElem e = false) (hc : e.srcCode.length ≠ 0) :
    (setHandleElement acc e).expr.length ≠ 0 := by
  unfold setHandleElement
  rw [constSetElem] at h
  rw [if_neg (by simp [h])]
  have hcomma : (", " : String).length = 2 := rfl
  by_cases he : acc.expr.length ≠ 0
  · rw [if_pos he, String.length_append, String.length_append]
    omega
  · rw [if_neg he, String.length_append]
    by_cases ht : strTruthy e.toCode = true
    · rw [if_pos ht, String.length_append, String.length_append, String.length_append]
      have hbr : ("[" : String).length = 1 := rfl
      omega
    · rw [if_neg ht]
      omega

/-- Helper: once the runtime expression is nonempty it stays nonempty. -/
theorem setHandleElement_keeps_nonempty (acc : SetAcc) (e : SetElemIn)
    (h : acc.expr.length ≠ 0) : (setHandleElement acc e).expr.length ≠ 0 := by
  unfold setHandleElement
  by_cases hc : (e.srcVal.isSome && (!strTruthy e.toCode || e.toVal.isSome)) = true
  · rw [if_pos hc]
    by_cases ht : strTruthy e.toCode = true <;> simp [ht, h]
  · rw [if_neg hc, if_pos h, String.length_append, String.length_append]
    have hcomma : (", " : String).length = 2 := rfl
    omega

/-- Helper: folding only constant elements never touches the expression. -/
theorem foldl_const_expr (elems : List SetElemIn) (acc : SetAcc)
    (h : ∀ e ∈ elems, constSetElem e = true) :
    (elems.foldl setHandleElement acc).expr = acc.expr := by
  induction elems generalizing acc with
  | nil => rfl
  | cons e rest ih =>
    rw [List.foldl_cons, ih _ (fun x hx => h x (List.mem_cons_of_mem e hx)),
      setHandleElement_const_expr acc e (h e (List.mem_cons_self e rest))]

/-- Helper: a nonempty expression survives any further folding. -/
theorem foldl_keeps_nonempty (elems : List SetElemIn) (acc : SetAcc)
    (h : acc.expr.length ≠ 0) :
    (elems.foldl setHandleElement acc).expr.length ≠ 0 := by
  induction elems generalizing acc with
  | nil => exact h
  | cons e rest ih =>
    exact ih _ (setHandleElement_keeps_nonempty acc e h)

/-- Helper: any non-constant element with nonempty code makes the final
expression nonempty. -/
theorem foldl_nonconst_nonempty (elems : List SetElemIn) (acc : SetAcc)
    (hcode : ∀ e ∈ elems, e.srcCode.length ≠ 0)
    (h : ∃ e ∈ elems, constSetElem e = false) :
    (elems.foldl setHandleElement acc).expr.length ≠ 0 := by
  induction elems generalizing acc with
  | nil =>
    rcases h with ⟨e, he, _⟩
    cases he
  | cons e rest ih =>
    rw [List.foldl_cons]
    by_cases hc : constSetElem e = false
    · exact foldl_keeps_nonempty rest _
        (setHandleElement_nonconst_expr acc e hc (hcode e (List.mem_cons_self e rest)))
    · rcases h with ⟨x, hx, hxc⟩
      rcases List.mem_cons.mp hx with rfl | hxr
      · exact absurd hxc hc
      · exact ih _ (fun y hy => hcode y (List.mem_cons_of_mem e hy)) ⟨x, hxr, hxc⟩

/-- C7: a set literal whose elements and ranges all carry compile-time
constants keeps the runtime expression empty and folds to a single constant
mask emitted as a literal; a set literal with any non-constant element (all
element code being nonempty, as parsed expression code is) compiles to the
runtime set-builder call over the collected non-constant parts, with the
constant bits or-ed on exactly when they are nonzero. -/
theorem set_literal_constant_folding (elems : List SetElemIn)
    (hcode : ∀ e ∈ elems, e.srcCode.length ≠ 0) :
    ((∀ e ∈ elems, constSetElem e = true) →
      (processSetElements elems).expr = ""
      ∧ setEndParse (processSetElements elems)
        = SetResult.constSet (processSetElements elems).value
            (toString (processSetElements elems).value))
    ∧ ((∃ e ∈ elems, constSetElem e = false) →
      (processSetElements elems).expr.length ≠ 0
      ∧ setEndParse (processSetElements elems)
        = SetResult.runtimeSet
            (rtlMakeSet (processSetElements elems).expr
             ++ (if (processSetElements elems).value ≠ 0 then
                   " | " ++ toString (processSetElements elems).value
                 else ""))) := by
  constructor
  · intro hall
    have hexp : (processSetElements elems).expr = "" :=
      foldl_const_expr elems ⟨0, ""⟩ hall
    refine ⟨hexp, ?_⟩
    rw [setEndParse, if_pos (by rw [hexp]; rfl)]
  · intro hbad
    have hexp : (processSetElements elems).expr.length ≠ 0 :=
      foldl_nonconst_nonempty elems ⟨0, ""⟩ hcode hbad
    refine ⟨hexp, ?_⟩
    rw [setEndParse, if_neg hexp]

/-- Witness for C7: the all-constant literal with element 1 and range 3..4
folds to mask 26; the literal with non-constant element x and constant
element 1 compiles to the runtime builder with the constant bits or-ed. -/
theorem set_literal_constant_folding_witness :
    (processSetElements [⟨"1", some 1, none, none⟩, ⟨"3", some 3, some "4", some 4⟩]).expr = ""
    ∧ setEndParse
        (processSetElements [⟨"1", some 1, none, none⟩, ⟨"3", some 3, some "4", some 4⟩])
      = SetResult.constSet 26 "26"
    ∧ (processSetElements [⟨"x", none, none, none⟩, ⟨"1", some 1, none, none⟩]).expr.length ≠ 0
    ∧ setEndParse (processSetElements [⟨"x", none, none, none⟩, ⟨"1", some 1, none, none⟩])
      = SetResult.runtimeSet "RTL$.makeSet(x) | 2" := by
  have h1 := (set_literal_constant_folding
    [⟨"1", some 1, none, none⟩, ⟨"3", some 3, some "4", some 4⟩] (by decide)).1 (by decide)
  have h2 := (set_literal_constant_folding
    [⟨"x", none, none, none⟩, ⟨"1", some 1, none, none⟩] (by decide)).2
    ⟨⟨"x", none, none, none⟩, by decide⟩
  refine ⟨h1.1, ?_, h2.1, ?_⟩
  · rw [h1.2]
    rfl
  · rw [h2.2]
    rfl
